import Mathlib

/-!
# Verification of the voice-capsule recorder core

Shallow embedding of the recording-session controller (`src/src/hooks/useRecorder.ts`)
and the segment orchestration state machine (`src/src/components/Recorder.tsx`).

Conventions of the embedding:
* React `useState` state and `useRef` refs become fields of explicit state records;
  each event handler becomes a function from state (plus the data returned by the
  external world at its `await` points) to state.
* Binary audio payloads (`Blob`) are modelled by their observable attributes used
  by the code: the MIME type string and the byte size.
* `URL.createObjectURL` is modelled by a fresh-counter: each call consumes the next
  natural number as the URL handle.
* The upload transport (`src/src/utils/cos-upload.ts` is not part of the repository;
  the spec declares it an external collaborator) is represented by its result value
  only; invocations of it are logged.
* `alert(...)` calls are logged in an `alerts` list (how rejections are surfaced).
-/

namespace VoiceCapsule

/-- An audio payload; the code observes `blob.type` and `blob.size`. -/
structure Blob where
  btype : String
  size : Nat
deriving DecidableEq, Repr

/-- Segment lifecycle status, from the `Segment` interface in `Recorder.tsx`. -/
inductive SegStatus
  | pending
  | recording
  | processing
  | recorded
  | uploading
  | uploaded
  | error
deriving DecidableEq, Repr

/-- One of the three segment records (`Segment` interface, `Recorder.tsx` lines 6-14).
`url` is the local preview object-URL handle; `uploadUrl` is the remote URL. -/
structure Segment where
  id : Nat
  status : SegStatus
  blob : Option Blob
  url : Option Nat
  uploadUrl : Option String
  retryCount : Nat
  errorMsg : Option String
deriving DecidableEq, Repr

/-- `RecorderState` from `useRecorder.ts` lines 4-12.  `volume` is advisory only
(no claim depends on its value), kept as a natural number. -/
structure RecState where
  isRecording : Bool
  isPaused : Bool
  recordingTime : Nat
  volume : Nat
  error : Option String
  audioBlob : Option Blob
  audioUrl : Option Nat
deriving DecidableEq, Repr

/-- The hook's full state: the React state plus the refs
(`recorderRef`, `streamRef`, `timerRef`, `volumeRef`, `audioContextRef`).
`recorder = some ()` means a `RecordRTC` instance exists (`recorderRef.current`);
`stream = true` means the media tracks are live; `timer`/`volumeTimer` mean the
corresponding intervals are armed; `audioCtxOpen` means the `AudioContext` is open. -/
structure Hook where
  st : RecState
  recorder : Option Unit
  stream : Bool
  timer : Bool
  volumeTimer : Bool
  audioCtxOpen : Bool
deriving DecidableEq, Repr

def initRecState : RecState :=
  { isRecording := false, isPaused := false, recordingTime := 0, volume := 0,
    error := none, audioBlob := none, audioUrl := none }

def initHook : Hook :=
  { st := initRecState, recorder := none, stream := false,
    timer := false, volumeTimer := false, audioCtxOpen := false }

/-- Device-acquisition failure cases distinguished by `startRecording`
(`useRecorder.ts` lines 113-119): `NotAllowedError`, `NotFoundError`, anything else. -/
inductive AcqError
  | notAllowed
  | notFound
  | other
deriving DecidableEq, Repr

/-- The user-facing message chosen in the `catch` of `startRecording`
(`useRecorder.ts` lines 111-119). -/
def acqErrorMessage : AcqError → String
  | AcqError.notAllowed => "麦克风权限被拒绝，请点击右上角\"在浏览器打开\"后重试"
  | AcqError.notFound => "未找到麦克风设备"
  | AcqError.other => "无法启动录音，请检查麦克风权限"

/-- `startRecording` (`useRecorder.ts` lines 45-123).  `acq = none` means
`getUserMedia` granted a stream; `acq = some e` means acquisition threw `e`.
On success the analyser/recorder are created, recording starts, and the 1 s
timing interval and the volume-sampling interval are armed.  On failure only
`error` is set (line 121); nothing else was touched before the throw. -/
def startRecording (h : Hook) (acq : Option AcqError) : Hook :=
  let h0 : Hook := { h with st := { h.st with error := none } }
  match acq with
  | some e => { h0 with st := { h0.st with error := some (acqErrorMessage e) } }
  | none =>
      { h0 with
        stream := true
        audioCtxOpen := true
        recorder := some ()
        st := { h0.st with isRecording := true, isPaused := false, recordingTime := 0 }
        timer := true
        volumeTimer := true }

/-- `stopRecording` (`useRecorder.ts` lines 126-169).  Clears both intervals and
closes the audio context unconditionally; if no `RecordRTC` instance exists it
resolves `null` (line 166); otherwise it finalizes, records the payload
(`got` is what `getBlob() || null` yields, an external input), creates a local
object URL for it, stops the media tracks, and resolves the payload.
Returns (new hook state, resolved payload, next fresh URL handle).
Note the code never clears `recorderRef` here. -/
def stopRecording (h : Hook) (got : Option Blob) (nextUrl : Nat) :
    Hook × Option Blob × Nat :=
  let h1 : Hook := { h with timer := false, volumeTimer := false, audioCtxOpen := false }
  match h1.recorder with
  | none => (h1, none, nextUrl)
  | some _ =>
      let url : Option Nat := got.map (fun _ => nextUrl)
      let st2 : RecState :=
        { h1.st with
          isRecording := false
          isPaused := false
          audioBlob := got
          audioUrl := url
          volume := 0 }
      let h2 : Hook := { h1 with st := st2, stream := false }
      (h2, got, if got.isSome then nextUrl + 1 else nextUrl)

/-- `resetRecording` (`useRecorder.ts` lines 214-250): clears every interval,
stops the tracks, closes the context, revokes the preview URL and returns the
state to the initial never-started condition. -/
def resetRecording (_h : Hook) : Hook := initHook

/-! ## Segment orchestrator (`Recorder.tsx`) -/

def SEGMENT_DURATION : Nat := 60

def MAX_RETRIES : Nat := 3

def HOLD_DELAY : Nat := 500

/-- Result of `uploadAudioSegment`.  Modelled from the spec: the source file
`src/utils/cos-upload.ts` is not part of the repository; §6 gives the
UploadClient contract `\x7b success: true, url: string \x7d | \x7b success: false,
reason: string \x7d`.  `Recorder.tsx` reads `result.success`, `result.url` and
`result.error` from it. -/
inductive UploadResult
  | ok (url : String)
  | fail (reason : String)
deriving DecidableEq, Repr

/-- The `Recorder` component's state, refs, and effect logs.
`nextUrl` is the fresh counter backing `URL.createObjectURL`; `startCalls`
counts `startRecording` session commands; `uploadCalls` logs every
`uploadAudioSegment` invocation (position and payload); `pendingUploads` holds
the uploads currently in flight (invoked, not yet settled); `alerts` logs
`alert(...)` messages. -/
@[ext]
structure OrchState where
  hook : Hook
  currentSegment : Nat
  segments : List Segment
  isHoldStarting : Bool
  holdTimerActive : Bool
  showGuide : Bool
  nextUrl : Nat
  startCalls : Nat
  uploadCalls : List (Nat × Blob)
  pendingUploads : List (Nat × Blob)
  alerts : List String
deriving DecidableEq, Repr

def initSegment (i : Nat) : Segment :=
  { id := i, status := SegStatus.pending, blob := none, url := none,
    uploadUrl := none, retryCount := 0, errorMsg := none }

/-- The component's initial state (`Recorder.tsx` lines 27-38). -/
def initState : OrchState :=
  { hook := initHook
    currentSegment := 0
    segments := [initSegment 0, initSegment 1, initSegment 2]
    isHoldStarting := false
    holdTimerActive := false
    showGuide := true
    nextUrl := 0
    startCalls := 0
    uploadCalls := []
    pendingUploads := []
    alerts := [] }

/-- Read segment `i` (the code indexes `segments[i]` on the 3-element array). -/
def getSeg (s : OrchState) (i : Nat) : Segment :=
  s.segments.getD i (initSegment i)

/-- A `setSegments(prev => ...)` functional update that patches position `i`. -/
def updateSeg (s : OrchState) (i : Nat) (f : Segment → Segment) : OrchState :=
  { s with segments := s.segments.set i (f (s.segments.getD i (initSegment i))) }

/-- The synchronous prefix of `uploadSegment` (`Recorder.tsx` lines 286-291):
mark the segment `uploading` and invoke `uploadAudioSegment(blob, taskId, i)`.
The invocation is logged and becomes an in-flight upload; its settlement is the
separate event `uploadComplete`. -/
def uploadBegin (s : OrchState) (idx : Nat) (b : Blob) : OrchState :=
  let s1 := updateSeg s idx (fun sg => { sg with status := SegStatus.uploading })
  { s1 with
    uploadCalls := s1.uploadCalls ++ [(idx, b)]
    pendingUploads := s1.pendingUploads ++ [(idx, b)] }

/-- Settlement of an in-flight `uploadAudioSegment` call (`Recorder.tsx`
lines 293-322).  On `result.success` the segment becomes `uploaded` with
`uploadUrl := result.url || null`; otherwise the `catch` marks it `error`,
increments `retryCount` and stores `error.message` (the thrown message is
`result.error || '上传失败'`).  The pending entry is consumed. -/
def uploadComplete (s : OrchState) (idx : Nat) (b : Blob) (r : UploadResult) :
    OrchState :=
  let s1 := { s with pendingUploads := s.pendingUploads.erase (idx, b) }
  match r with
  | UploadResult.ok url =>
      updateSeg s1 idx (fun sg =>
        { sg with
          status := SegStatus.uploaded
          uploadUrl := if url = "" then none else some url })
  | UploadResult.fail reason =>
      updateSeg s1 idx (fun sg =>
        { sg with
          status := SegStatus.error
          retryCount := sg.retryCount + 1
          errorMsg := some (if reason = "" then "上传失败" else reason) })

/-- The MIME-type correction applied to a stopped payload (`Recorder.tsx`
lines 114-123 and 229-238): a blob typed `audio/wav` or untyped is re-wrapped
as `audio/webm`; anything else is kept as is. -/
def correctBlob (b : Blob) : Blob :=
  if b.btype = "audio/wav" ∨ b.btype = "" then { b with btype := "audio/webm" } else b

/-- `handleTouchStart` (`Recorder.tsx` lines 174-193): only a `pending` or
`error` segment may start; otherwise no-op.  Accepting arms the 500 ms hold
timer and raises `isHoldStarting`. -/
def handleTouchStart (s : OrchState) : OrchState :=
  if (getSeg s s.currentSegment).status ≠ SegStatus.pending ∧
      (getSeg s s.currentSegment).status ≠ SegStatus.error then s
  else { s with isHoldStarting := true, holdTimerActive := true }

/-- The hold timer's callback (`Recorder.tsx` lines 180-192), firing only if it
was not cancelled: drop the hold flags and the guide, mark the segment
`recording`, and issue the session `startRecording()` command (`acq` is the
device-acquisition outcome). -/
def holdTimerFire (s : OrchState) (acq : Option AcqError) : OrchState :=
  if s.holdTimerActive = false then s
  else
    let s1 := { s with holdTimerActive := false, isHoldStarting := false, showGuide := false }
    let s2 := updateSeg s1 s1.currentSegment (fun sg => { sg with status := SegStatus.recording })
    { s2 with hook := startRecording s2.hook acq, startCalls := s2.startCalls + 1 }

/-- `handleAutoStop` (`Recorder.tsx` lines 90-171).  Guard: bail out unless
`state.isRecording` (line 95).  Then: mark the segment `processing`, await
`stopRecording()`, compute the MIME-corrected blob, and — as the code stands —
invoke `uploadSegment` with the corrected blob (lines 136-140, which also
creates an unused object URL), and then AGAIN run the original block
(lines 142-170): on a non-null payload mark the segment `recorded` with the
payload and a preview URL and invoke `uploadSegment` a second time with the
uncorrected blob; on a null payload mark the segment `error` with a
capture-failure message. -/
def handleAutoStop (s : OrchState) (got : Option Blob) : OrchState :=
  if s.hook.st.isRecording = false then s
  else
    let s1 := updateSeg s s.currentSegment (fun sg => { sg with status := SegStatus.processing })
    let r := stopRecording s1.hook got s1.nextUrl
    let s2 := { s1 with hook := r.1, nextUrl := r.2.2 }
    match r.2.1 with
    | some b =>
        let s3 := uploadBegin { s2 with nextUrl := s2.nextUrl + 1 }
                    s2.currentSegment (correctBlob b)
        let s4 := updateSeg { s3 with nextUrl := s3.nextUrl + 1 } s3.currentSegment
                    (fun sg =>
                      { sg with status := SegStatus.recorded, blob := some b, url := some s3.nextUrl })
        uploadBegin s4 s4.currentSegment b
    | none =>
        updateSeg s2 s2.currentSegment
          (fun sg => { sg with status := SegStatus.error, errorMsg := some "录制失败，请重试" })

/-- `handleTouchEnd` (`Recorder.tsx` lines 196-275).  If still inside the hold
delay, cancel the pending start and do nothing else (lines 200-207).  If not
recording, or the elapsed time has reached `SEGMENT_DURATION`, defer to the
auto-stop path (lines 210-213).  Otherwise it repeats the stop sequence of
`handleAutoStop` — including the double `uploadSegment` invocation — except
that the final `if (blob)` block (lines 257-274) has NO else branch: a null
payload leaves the segment in `processing`. -/
def handleTouchEnd (s : OrchState) (got : Option Blob) : OrchState :=
  if s.isHoldStarting = true then
    { s with holdTimerActive := false, isHoldStarting := false }
  else if s.hook.st.isRecording = false ∨ SEGMENT_DURATION ≤ s.hook.st.recordingTime then s
  else
    let s1 := updateSeg s s.currentSegment (fun sg => { sg with status := SegStatus.processing })
    let r := stopRecording s1.hook got s1.nextUrl
    let s2 := { s1 with hook := r.1, nextUrl := r.2.2 }
    match r.2.1 with
    | some b =>
        let s3 := uploadBegin { s2 with nextUrl := s2.nextUrl + 1 }
                    s2.currentSegment (correctBlob b)
        let s4 := updateSeg { s3 with nextUrl := s3.nextUrl + 1 } s3.currentSegment
                    (fun sg =>
                      { sg with status := SegStatus.recorded, blob := some b, url := some s3.nextUrl })
        uploadBegin s4 s4.currentSegment b
    | none => s2

/-- `handleManualStop` (`Recorder.tsx` lines 278-283): the explicit stop button
delegates to `handleTouchEnd` when recording. -/
def handleManualStop (s : OrchState) (got : Option Blob) : OrchState :=
  if s.hook.st.isRecording = false then s else handleTouchEnd s got

/-- `handleRetryUpload` (`Recorder.tsx` lines 326-334): with no stored payload
or with `retryCount >= MAX_RETRIES` the request is rejected with an alert;
otherwise the stored payload is re-submitted via `uploadSegment`. -/
def handleRetryUpload (s : OrchState) : OrchState :=
  if (getSeg s s.currentSegment).blob = none ∨
      MAX_RETRIES ≤ (getSeg s s.currentSegment).retryCount then
    { s with alerts := s.alerts ++ ["无法重试，请重新录制"] }
  else
    match (getSeg s s.currentSegment).blob with
    | some b => uploadBegin s s.currentSegment b
    | none => s

/-- `handleRetry` (`Recorder.tsx` lines 337-363): re-record.  Rejected with an
alert once `retryCount >= MAX_RETRIES`; otherwise the preview URL is revoked,
the segment is reset to `pending` with `blob`, `url`, `uploadUrl` and
`errorMsg` cleared — note `retryCount` is NOT reset — and the session is reset. -/
def handleRetry (s : OrchState) : OrchState :=
  if MAX_RETRIES ≤ (getSeg s s.currentSegment).retryCount then
    { s with alerts := s.alerts ++ ["该段已重试次数过多，请继续下一段"] }
  else
    let s1 := updateSeg s s.currentSegment (fun sg =>
      { sg with
        status := SegStatus.pending
        blob := none
        url := none
        uploadUrl := none
        errorMsg := none })
    { s1 with hook := resetRecording s1.hook }

/-- `handleNextSegment` (`Recorder.tsx` lines 366-371): advance the cursor and
reset the session if not on the last position.  Note the handler itself does
not inspect the segment status. -/
def handleNextSegment (s : OrchState) : OrchState :=
  if s.currentSegment < 2 then
    { s with currentSegment := s.currentSegment + 1, hook := resetRecording s.hook }
  else s

/-- The advance request as the UI can actually issue it: the 下一段 button is
rendered only under `currentSeg.status === 'uploaded' && currentSegment < 2`
(`Recorder.tsx` line 527), and clicking it runs `handleNextSegment`. -/
def nextSegmentClick (s : OrchState) : OrchState :=
  if (getSeg s s.currentSegment).status = SegStatus.uploaded ∧ s.currentSegment < 2 then
    handleNextSegment s
  else s

/-- The retry-upload request as the UI can issue it: the 重试上传 button is
rendered only under `currentSeg.status === 'error' && currentSeg.blob`
(`Recorder.tsx` line 545). -/
def retryUploadClick (s : OrchState) : OrchState :=
  if (getSeg s s.currentSegment).status = SegStatus.error ∧
      (getSeg s s.currentSegment).blob ≠ none then
    handleRetryUpload s
  else s

/-- The re-record request as the UI can issue it: the 重新录制 button is
rendered only when the segment is `error` or `uploaded` (`Recorder.tsx`
line 536). -/
def retryClick (s : OrchState) : OrchState :=
  if (getSeg s s.currentSegment).status = SegStatus.error ∨
      (getSeg s s.currentSegment).status = SegStatus.uploaded then
    handleRetry s
  else s

/-- States of the orchestrator reachable from the initial render by the events
the component reacts to: press, hold-timer expiry, release, the auto-stop
effect, the explicit stop button, the three guarded buttons, and settlement of
an in-flight upload (which may only settle an upload that was actually
invoked). -/
inductive Reachable : OrchState → Prop
  | init : Reachable initState
  | touchStart (s : OrchState) (h : Reachable s) : Reachable (handleTouchStart s)
  | holdFire (s : OrchState) (acq : Option AcqError) (h : Reachable s) :
      Reachable (holdTimerFire s acq)
  | touchEnd (s : OrchState) (got : Option Blob) (h : Reachable s) :
      Reachable (handleTouchEnd s got)
  | autoStop (s : OrchState) (got : Option Blob) (h : Reachable s) :
      Reachable (handleAutoStop s got)
  | manualStop (s : OrchState) (got : Option Blob) (h : Reachable s) :
      Reachable (handleManualStop s got)
  | retryUpload (s : OrchState) (h : Reachable s) : Reachable (retryUploadClick s)
  | rerecord (s : OrchState) (h : Reachable s) : Reachable (retryClick s)
  | nextSeg (s : OrchState) (h : Reachable s) : Reachable (nextSegmentClick s)
  | complete (s : OrchState) (idx : Nat) (b : Blob) (r : UploadResult)
      (h : Reachable s) (hmem : (idx, b) ∈ s.pendingUploads) :
      Reachable (uploadComplete s idx b r)

/-! ## Concrete states used to instantiate and refute claims -/

/-- A typical payload returned by `RecordRTC` on Chrome/Edge. -/
def testBlob : Blob := { btype := "audio/webm", size := 2000 }

/-- Press and hold past the debounce delay on a fresh component: segment 0 is
`recording`. -/
def recordingState : OrchState := holdTimerFire (handleTouchStart initState) none

/-- `recordingState` with the elapsed time at the 60 s limit, i.e. the instant
both the auto-stop effect and a manual release could fire. -/
def atLimitState : OrchState :=
  { recordingState with
    hook := { recordingState.hook with
              st := { recordingState.hook.st with recordingTime := SEGMENT_DURATION } } }

/-- The state after the auto-stop of a successful capture of segment 0. -/
def autoStoppedState : OrchState := handleAutoStop recordingState (some testBlob)

/-- `autoStoppedState` after the first of the two invoked uploads settles
successfully. -/
def uploadedState : OrchState :=
  uploadComplete autoStoppedState 0 testBlob (UploadResult.ok "https://cos.example/task/seg0.webm")

/-- `uploadedState` after the second in-flight upload settles with a failure. -/
def staleUrlState : OrchState :=
  uploadComplete uploadedState 0 testBlob (UploadResult.fail "network error")

/-- Segment 0 captured, then three upload failures in sequence: the two
invocations of the stop sequence both fail, then an accepted retry-upload
fails as well, driving `retryCount` to 3. -/
def cappedState : OrchState :=
  uploadComplete
    (retryUploadClick
      (uploadComplete
        (uploadComplete autoStoppedState 0 testBlob (UploadResult.fail "network error"))
        0 testBlob (UploadResult.fail "network error")))
    0 testBlob (UploadResult.fail "network error")

/-! ## Helper lemmas -/

theorem getD_set_self {α : Type} (l : List α) (i : Nat) (v d : α)
    (h : i < l.length) : (l.set i v).getD i d = v := by
  induction l generalizing i with
  | nil => simp at h
  | cons a t ih =>
    cases i with
    | zero => rfl
    | succ n =>
      have hn : n < t.length := by simpa using h
      simpa using ih n hn

theorem getD_set_ne {α : Type} (l : List α) (i j : Nat) (v d : α)
    (h : j ≠ i) : (l.set i v).getD j d = l.getD j d := by
  induction l generalizing i j with
  | nil => rfl
  | cons a t ih =>
    cases i with
    | zero =>
      cases j with
      | zero => exact absurd rfl h
      | succ m => rfl
    | succ n =>
      cases j with
      | zero => rfl
      | succ m =>
        have hm : m ≠ n := fun he => h (by rw [he])
        simpa using ih n m hm

theorem getSeg_updateSeg_self (s : OrchState) (i : Nat) (f : Segment → Segment)
    (h : i < s.segments.length) : getSeg (updateSeg s i f) i = f (getSeg s i) := by
  unfold getSeg updateSeg
  exact getD_set_self _ _ _ _ h

theorem getSeg_updateSeg_ne (s : OrchState) (i j : Nat) (f : Segment → Segment)
    (h : j ≠ i) : getSeg (updateSeg s i f) j = getSeg s j := by
  unfold getSeg updateSeg
  exact getD_set_ne _ _ _ _ _ h

@[simp] theorem updateSeg_hook (s : OrchState) (i : Nat) (f : Segment → Segment) :
    (updateSeg s i f).hook = s.hook := rfl

@[simp] theorem updateSeg_currentSegment (s : OrchState) (i : Nat) (f : Segment → Segment) :
    (updateSeg s i f).currentSegment = s.currentSegment := rfl

@[simp] theorem updateSeg_isHoldStarting (s : OrchState) (i : Nat) (f : Segment → Segment) :
    (updateSeg s i f).isHoldStarting = s.isHoldStarting := rfl

@[simp] theorem updateSeg_alerts (s : OrchState) (i : Nat) (f : Segment → Segment) :
    (updateSeg s i f).alerts = s.alerts := rfl

@[simp] theorem updateSeg_uploadCalls (s : OrchState) (i : Nat) (f : Segment → Segment) :
    (updateSeg s i f).uploadCalls = s.uploadCalls := rfl

@[simp] theorem updateSeg_segments_length (s : OrchState) (i : Nat) (f : Segment → Segment) :
    (updateSeg s i f).segments.length = s.segments.length := by
  unfold updateSeg
  simp

@[simp] theorem uploadBegin_hook (s : OrchState) (i : Nat) (b : Blob) :
    (uploadBegin s i b).hook = s.hook := rfl

@[simp] theorem uploadBegin_currentSegment (s : OrchState) (i : Nat) (b : Blob) :
    (uploadBegin s i b).currentSegment = s.currentSegment := rfl

@[simp] theorem uploadBegin_isHoldStarting (s : OrchState) (i : Nat) (b : Blob) :
    (uploadBegin s i b).isHoldStarting = s.isHoldStarting := rfl

@[simp] theorem stopRecording_fst_recordingTime (h : Hook) (got : Option Blob) (u : Nat) :
    (stopRecording h got u).1.st.recordingTime = h.st.recordingTime := by
  unfold stopRecording
  cases h.recorder <;> rfl

@[simp] theorem stopRecording_fst_recorder (h : Hook) (got : Option Blob) (u : Nat) :
    (stopRecording h got u).1.recorder = h.recorder := by
  unfold stopRecording
  cases h.recorder <;> rfl

/-- `handleAutoStop` never touches the hold flag. -/
theorem handleAutoStop_isHoldStarting (s : OrchState) (got : Option Blob) :
    (handleAutoStop s got).isHoldStarting = s.isHoldStarting := by
  unfold handleAutoStop
  split
  · rfl
  · dsimp only
    split <;> rfl

/-- `handleAutoStop` never changes the elapsed-time reading. -/
theorem handleAutoStop_recordingTime (s : OrchState) (got : Option Blob) :
    (handleAutoStop s got).hook.st.recordingTime = s.hook.st.recordingTime := by
  unfold handleAutoStop
  split
  · rfl
  · dsimp only
    split <;> simp

/-! ## Claim theorems -/

/-- C8: if device acquisition fails during `start()`, the session state is left
unchanged — `isRecording` keeps its value (so stays false), no timers are
started, no recorder or stream is created — and `error` is populated with a
user-facing message; the messages for permission refused, no device found, and
the generic failure are pairwise distinct. -/
theorem startRecording_failure_spec (h : Hook) (e : AcqError) :
    startRecording h (some e) =
      { h with st := { h.st with error := some (acqErrorMessage e) } } ∧
    (startRecording h (some e)).st.isRecording = h.st.isRecording ∧
    (startRecording h (some e)).timer = h.timer ∧
    (startRecording h (some e)).volumeTimer = h.volumeTimer ∧
    (startRecording h (some e)).recorder = h.recorder ∧
    (startRecording h (some e)).stream = h.stream ∧
    (startRecording h (some e)).st.error = some (acqErrorMessage e) ∧
    acqErrorMessage AcqError.notAllowed ≠ acqErrorMessage AcqError.notFound ∧
    acqErrorMessage AcqError.notAllowed ≠ acqErrorMessage AcqError.other ∧
    acqErrorMessage AcqError.notFound ≠ acqErrorMessage AcqError.other :=
  ⟨rfl, rfl, rfl, rfl, rfl, rfl, rfl, by decide, by decide, by decide⟩

/-- C9: `stop()` with no active capture (`recorderRef.current === null`) resolves
null, is idempotent, and — when the timers and audio context are already
inactive, as in every no-capture state the hook produces — changes nothing;
with an active capture it resolves the accumulated payload, cancels the timing
and volume timers, closes the audio context, and releases the device tracks. -/
theorem stopRecording_spec (h : Hook) (got got2 : Option Blob) (u u2 : Nat) :
    (h.recorder = none →
      stopRecording h got u =
        ({ h with timer := false, volumeTimer := false, audioCtxOpen := false }, none, u) ∧
      stopRecording (stopRecording h got u).1 got2 u2 =
        ((stopRecording h got u).1, none, u2) ∧
      (h.timer = false → h.volumeTimer = false → h.audioCtxOpen = false →
        (stopRecording h got u).1 = h)) ∧
    (h.recorder = some () →
      (stopRecording h got u).2.1 = got ∧
      (stopRecording h got u).1.st.audioBlob = got ∧
      (stopRecording h got u).1.timer = false ∧
      (stopRecording h got u).1.volumeTimer = false ∧
      (stopRecording h got u).1.audioCtxOpen = false ∧
      (stopRecording h got u).1.stream = false ∧
      (stopRecording h got u).1.st.isRecording = false) := by
  obtain ⟨st, rec, strm, t, v, a⟩ := h
  cases rec with
  | none =>
    refine ⟨fun _ => ⟨rfl, rfl, fun ht hv ha => ?_⟩, fun hc => Option.noConfusion hc⟩
    dsimp only at ht hv ha
    subst ht; subst hv; subst ha
    rfl
  | some x =>
    exact ⟨fun hc => Option.noConfusion hc,
      fun _ => ⟨rfl, rfl, rfl, rfl, rfl, rfl, rfl⟩⟩

/-- Witness for C9: on the initial hook a stop resolves null and changes
nothing; after a successful start, a stop resolves the captured payload. -/
theorem stopRecording_spec_witness :
    stopRecording initHook none 0 =
      ({ initHook with timer := false, volumeTimer := false, audioCtxOpen := false },
        none, 0) ∧
    (stopRecording initHook none 0).1 = initHook ∧
    (stopRecording (startRecording initHook none) (some testBlob) 5).2.1 = some testBlob := by
  have h1 := (stopRecording_spec initHook none none 0 0).1 rfl
  have h2 := (stopRecording_spec (startRecording initHook none) (some testBlob) none 5 0).2 rfl
  exact ⟨h1.1, h1.2.2 rfl rfl rfl, h2.1⟩

/-- C7: a hold released before the 500 ms debounce delay cancels the pending
start: the component returns to exactly the state it was in (no segment status
change, no session state change, `startCalls` unchanged, so no `start()`
command was or will be issued — the disarmed timer's expiry is a no-op). -/
theorem holdCancel_spec (s : OrchState) (got : Option Blob) (acq : Option AcqError)
    (h1 : s.isHoldStarting = false) (h2 : s.holdTimerActive = false)
    (h3 : (getSeg s s.currentSegment).status = SegStatus.pending ∨
          (getSeg s s.currentSegment).status = SegStatus.error) :
    handleTouchEnd (handleTouchStart s) got = s ∧
    holdTimerFire (handleTouchEnd (handleTouchStart s) got) acq = s := by
  have harm : handleTouchStart s = { s with isHoldStarting := true, holdTimerActive := true } := by
    unfold handleTouchStart
    rw [if_neg]
    intro hc
    rcases h3 with h | h
    · exact hc.1 h
    · exact hc.2 h
  have hend : handleTouchEnd (handleTouchStart s) got = s := by
    rw [harm]
    unfold handleTouchEnd
    rw [if_pos rfl]
    ext <;> simp [h1, h2]
  refine ⟨hend, ?_⟩
  rw [hend]
  unfold holdTimerFire
  rw [if_pos h2]

/-- Witness for C7: press-and-release within the delay on the fresh component
is a complete no-op. -/
theorem holdCancel_spec_witness :
    handleTouchEnd (handleTouchStart initState) none = initState ∧
    holdTimerFire (handleTouchEnd (handleTouchStart initState) none) none = initState :=
  holdCancel_spec initState none none rfl rfl (Or.inl rfl)

/-- C6: the advance request the UI can issue (the 下一段 button, rendered only
for an `uploaded`, non-last segment) increments `currentSegment` by exactly 1
— leaving the segment records untouched — and is a no-op whenever the current
segment is not `uploaded` (in particular while it is `uploading`) or the
cursor is on the last position. -/
theorem advance_spec (s : OrchState) :
    ((getSeg s s.currentSegment).status = SegStatus.uploaded → s.currentSegment < 2 →
      (nextSegmentClick s).currentSegment = s.currentSegment + 1 ∧
      (nextSegmentClick s).segments = s.segments) ∧
    ((getSeg s s.currentSegment).status ≠ SegStatus.uploaded → nextSegmentClick s = s) ∧
    (¬ s.currentSegment < 2 → nextSegmentClick s = s) := by
  refine ⟨fun hu hl => ?_, fun hn => ?_, fun hn => ?_⟩
  · unfold nextSegmentClick
    rw [if_pos ⟨hu, hl⟩]
    unfold handleNextSegment
    rw [if_pos hl]
    exact ⟨rfl, rfl⟩
  · unfold nextSegmentClick
    rw [if_neg (fun hc => hn hc.1)]
  · unfold nextSegmentClick
    rw [if_neg (fun hc => hn hc.2)]

/-- Witness for C6: with segment 0 `uploaded` the click advances to segment 1;
with segment 0 still `uploading` the click is rejected as a no-op. -/
theorem advance_spec_witness :
    (nextSegmentClick uploadedState).currentSegment = uploadedState.currentSegment + 1 ∧
    nextSegmentClick autoStoppedState = autoStoppedState :=
  ⟨((advance_spec uploadedState).1 (by decide) (by decide)).1,
    (advance_spec autoStoppedState).2.1 (by decide)⟩

/-- C3: when the auto-stop trigger condition holds (recording, elapsed time at
the limit), the manual-stop handler is a no-op both before and after the
auto-stop runs, so running the two racing handlers in either order equals
running `handleAutoStop` alone: exactly one stop sequence — and hence exactly
one `processing → recorded/error` transition — executes. -/
theorem stopRace_spec (s : OrchState) (got got2 : Option Blob)
    (_hrec : s.hook.st.isRecording = true)
    (htime : SEGMENT_DURATION ≤ s.hook.st.recordingTime)
    (hhold : s.isHoldStarting = false) :
    handleTouchEnd s got2 = s ∧
    handleTouchEnd (handleAutoStop s got) got2 = handleAutoStop s got ∧
    handleAutoStop (handleTouchEnd s got2) got = handleAutoStop s got := by
  have hte : ∀ t : OrchState, t.isHoldStarting = false →
      SEGMENT_DURATION ≤ t.hook.st.recordingTime → handleTouchEnd t got2 = t := by
    intro t h1 h2
    unfold handleTouchEnd
    rw [if_neg (by simp [h1]), if_pos (Or.inr h2)]
  have h1 := hte s hhold htime
  have h2 := hte (handleAutoStop s got)
    (by rw [handleAutoStop_isHoldStarting]; exact hhold)
    (by rw [handleAutoStop_recordingTime]; exact htime)
  exact ⟨h1, h2, by rw [h1]⟩

/-- Witness for C3: at the 60-second limit of a live recording, both orders of
the racing handlers coincide with the auto-stop alone. -/
theorem stopRace_spec_witness :
    handleTouchEnd atLimitState (some testBlob) = atLimitState ∧
    handleTouchEnd (handleAutoStop atLimitState (some testBlob)) (some testBlob) =
      handleAutoStop atLimitState (some testBlob) ∧
    handleAutoStop (handleTouchEnd atLimitState (some testBlob)) (some testBlob) =
      handleAutoStop atLimitState (some testBlob) :=
  stopRace_spec atLimitState (some testBlob) (some testBlob) (by decide) (by decide) (by decide)

/-- C10: when an in-flight upload for a segment fails, only that segment's
`status`, `retryCount` and `errorMsg` change; its payload, preview URL, remote
URL and id are untouched, every other segment record is untouched, and the
session state, cursor, call log and alert log are untouched. -/
theorem uploadFailure_frame (s : OrchState) (idx : Nat) (b : Blob) (reason : String)
    (hidx : idx < s.segments.length) :
    (getSeg (uploadComplete s idx b (UploadResult.fail reason)) idx).blob =
      (getSeg s idx).blob ∧
    (getSeg (uploadComplete s idx b (UploadResult.fail reason)) idx).url =
      (getSeg s idx).url ∧
    (getSeg (uploadComplete s idx b (UploadResult.fail reason)) idx).uploadUrl =
      (getSeg s idx).uploadUrl ∧
    (getSeg (uploadComplete s idx b (UploadResult.fail reason)) idx).id =
      (getSeg s idx).id ∧
    (getSeg (uploadComplete s idx b (UploadResult.fail reason)) idx).status =
      SegStatus.error ∧
    (getSeg (uploadComplete s idx b (UploadResult.fail reason)) idx).retryCount =
      (getSeg s idx).retryCount + 1 ∧
    (getSeg (uploadComplete s idx b (UploadResult.fail reason)) idx).errorMsg =
      some (if reason = "" then "上传失败" else reason) ∧
    (∀ j, j ≠ idx →
      getSeg (uploadComplete s idx b (UploadResult.fail reason)) j = getSeg s j) ∧
    (uploadComplete s idx b (UploadResult.fail reason)).hook = s.hook ∧
    (uploadComplete s idx b (UploadResult.fail reason)).currentSegment = s.currentSegment ∧
    (uploadComplete s idx b (UploadResult.fail reason)).uploadCalls = s.uploadCalls ∧
    (uploadComplete s idx b (UploadResult.fail reason)).alerts = s.alerts := by
  unfold uploadComplete
  dsimp only
  rw [getSeg_updateSeg_self
    { s with pendingUploads := s.pendingUploads.erase (idx, b) } _ _ hidx]
  refine ⟨rfl, rfl, rfl, rfl, rfl, rfl, rfl, fun j hj => ?_, rfl, rfl, rfl, rfl⟩
  rw [getSeg_updateSeg_ne
    { s with pendingUploads := s.pendingUploads.erase (idx, b) } _ _ _ hj]
  rfl

/-- Witness for C10: the failing second upload of segment 0 leaves its payload
and preview URL, and segment 1's whole record, unchanged. -/
theorem uploadFailure_frame_witness :
    (getSeg (uploadComplete uploadedState 0 testBlob (UploadResult.fail "network error")) 0).blob =
      (getSeg uploadedState 0).blob ∧
    (getSeg (uploadComplete uploadedState 0 testBlob (UploadResult.fail "network error")) 0).url =
      (getSeg uploadedState 0).url ∧
    getSeg (uploadComplete uploadedState 0 testBlob (UploadResult.fail "network error")) 1 =
      getSeg uploadedState 1 := by
  have h := uploadFailure_frame uploadedState 0 testBlob "network error" (by decide)
  exact ⟨h.1, h.2.1, h.2.2.2.2.2.2.2.1 1 (by decide)⟩

/-- An accepted re-record (`retryCount` below the cap) patches the current
segment to the cleared `pending` record, keeping `retryCount` and `id`. -/
theorem handleRetry_accepted (s : OrchState) (hlen : s.currentSegment < s.segments.length)
    (hlt : (getSeg s s.currentSegment).retryCount < MAX_RETRIES) :
    getSeg (handleRetry s) s.currentSegment =
      { getSeg s s.currentSegment with
        status := SegStatus.pending
        blob := none
        url := none
        uploadUrl := none
        errorMsg := none } := by
  unfold handleRetry
  rw [if_neg (Nat.not_le.mpr hlt)]
  exact getD_set_self _ _ _ _ hlen

/-- C1, counterexample: in the reachable state where uploads for segment 0 have
failed three times (`retryCount = 3`, status `error`), a re-record request is
NOT accepted — contrary to the claim, it is rejected with the alert
该段已重试次数过多 and leaves every segment record unchanged, and `retryCount`
is not reset to 0 (no path of `handleRetry` writes `retryCount`). -/
theorem rerecord_at_cap_refuted :
    Reachable cappedState ∧
    (getSeg cappedState 0).retryCount = 3 ∧
    (getSeg cappedState 0).status = SegStatus.error ∧
    (handleRetry cappedState).segments = cappedState.segments ∧
    (getSeg (handleRetry cappedState) 0).status ≠ SegStatus.pending ∧
    (getSeg (handleRetry cappedState) 0).retryCount ≠ 0 ∧
    (handleRetry cappedState).alerts =
      cappedState.alerts ++ ["该段已重试次数过多，请继续下一段"] := by
  refine ⟨?_, by decide, by decide, by decide, by decide, by decide, by decide⟩
  have h1 := Reachable.touchStart _ Reachable.init
  have h2 := Reachable.holdFire _ none h1
  have h3 := Reachable.autoStop _ (some testBlob) h2
  have h4 := Reachable.complete _ 0 testBlob (UploadResult.fail "network error") h3 (by decide)
  have h5 := Reachable.complete _ 0 testBlob (UploadResult.fail "network error") h4 (by decide)
  have h6 := Reachable.retryUpload _ h5
  exact Reachable.complete _ 0 testBlob (UploadResult.fail "network error") h6 (by decide)

/-- C1 as amended: once `retryCount` has reached `MAX_RETRIES`, BOTH requests
are rejected and surfaced via an alert — retry-upload starts no upload and
re-record changes no segment; an accepted re-record (`retryCount` below the
cap) returns the segment to `pending` with payload, preview URL, remote URL
and error message cleared but `retryCount` unchanged, never reset to 0. -/
theorem retryCap_spec (s : OrchState) (hlen : s.currentSegment < s.segments.length) :
    (MAX_RETRIES ≤ (getSeg s s.currentSegment).retryCount →
      (handleRetryUpload s).segments = s.segments ∧
      (handleRetryUpload s).uploadCalls = s.uploadCalls ∧
      (handleRetryUpload s).pendingUploads = s.pendingUploads ∧
      (handleRetryUpload s).alerts = s.alerts ++ ["无法重试，请重新录制"] ∧
      (handleRetry s).segments = s.segments ∧
      (handleRetry s).hook = s.hook ∧
      (handleRetry s).alerts = s.alerts ++ ["该段已重试次数过多，请继续下一段"]) ∧
    ((getSeg s s.currentSegment).retryCount < MAX_RETRIES →
      (getSeg (handleRetry s) s.currentSegment).status = SegStatus.pending ∧
      (getSeg (handleRetry s) s.currentSegment).retryCount =
        (getSeg s s.currentSegment).retryCount ∧
      (getSeg (handleRetry s) s.currentSegment).blob = none ∧
      (getSeg (handleRetry s) s.currentSegment).url = none ∧
      (getSeg (handleRetry s) s.currentSegment).uploadUrl = none ∧
      (getSeg (handleRetry s) s.currentSegment).errorMsg = none) := by
  constructor
  · intro hc
    have hru : handleRetryUpload s = { s with alerts := s.alerts ++ ["无法重试，请重新录制"] } := by
      unfold handleRetryUpload
      rw [if_pos (Or.inr hc)]
    have hrr : handleRetry s =
        { s with alerts := s.alerts ++ ["该段已重试次数过多，请继续下一段"] } := by
      unfold handleRetry
      rw [if_pos hc]
    rw [hru, hrr]
    exact ⟨rfl, rfl, rfl, rfl, rfl, rfl, rfl⟩
  · intro hlt
    rw [handleRetry_accepted s hlen hlt]
    exact ⟨rfl, rfl, rfl, rfl, rfl, rfl⟩

/-- Witness for the amended C1: at the capped state both requests are rejected
without touching the records; an accepted re-record on segment 0 after a
successful upload yields `pending` with `retryCount` kept at its old value. -/
theorem retryCap_spec_witness :
    (handleRetryUpload cappedState).uploadCalls = cappedState.uploadCalls ∧
    (handleRetryUpload cappedState).alerts = cappedState.alerts ++ ["无法重试，请重新录制"] ∧
    (handleRetry cappedState).segments = cappedState.segments ∧
    (getSeg (handleRetry uploadedState) 0).status = SegStatus.pending ∧
    (getSeg (handleRetry uploadedState) 0).retryCount = 0 := by
  have h1 := (retryCap_spec cappedState (by decide)).1 (by decide)
  have h2 := (retryCap_spec uploadedState (by decide)).2 (by decide)
  exact ⟨h1.2.1, h1.2.2.2.1, h1.2.2.2.2.1, h2.1, h2.2.1⟩

/-- C2: evaluation of the stop handlers on a successful capture shows that ONE
stop issues TWO `uploadAudioSegment` invocations for the same position — the
patched block (lines 136-140 / 251-255) uploads the MIME-corrected blob and
the original block (lines 142-158 / 257-273) uploads the raw blob again — so
two uploads are in flight for segment 0 at once, contradicting the claim that
a single stop results in exactly one upload call. -/
theorem single_stop_double_upload :
    autoStoppedState.uploadCalls = [(0, testBlob), (0, testBlob)] ∧
    autoStoppedState.uploadCalls.length = 2 ∧
    autoStoppedState.pendingUploads.length = 2 ∧
    (handleTouchEnd recordingState (some testBlob)).uploadCalls.length = 2 := by
  decide

/-- C4, counterexample: a reachable state in which segment 0's remote URL is
set while its status is `error`, refuting `remoteUrl set ↔ status = uploaded`:
one stop started two uploads, the first succeeded (setting `uploadUrl`), the
second failed (setting `error` without clearing `uploadUrl`). -/
theorem remoteUrl_iff_refuted :
    Reachable staleUrlState ∧
    (getSeg staleUrlState 0).status = SegStatus.error ∧
    (getSeg staleUrlState 0).uploadUrl = some "https://cos.example/task/seg0.webm" := by
  refine ⟨?_, by decide, by decide⟩
  have h1 := Reachable.touchStart _ Reachable.init
  have h2 := Reachable.holdFire _ none h1
  have h3 := Reachable.autoStop _ (some testBlob) h2
  have h4 := Reachable.complete _ 0 testBlob
    (UploadResult.ok "https://cos.example/task/seg0.webm") h3 (by decide)
  exact Reachable.complete _ 0 testBlob (UploadResult.fail "network error") h4 (by decide)

/-- C4 as amended: `remoteUrl` is written (to the upload's url) exactly by a
successful upload settlement and cleared only by an accepted re-record; a
failing settlement sets the status to `error` but leaves `remoteUrl` as it
was.  Hence the forward direction of the claimed invariant fails: `remoteUrl`
may stay set while the status is `error` (or any later non-`uploaded`
status). -/
theorem remoteUrl_lifecycle (s : OrchState) (idx : Nat) (b : Blob) (url reason : String)
    (hidx : idx < s.segments.length) (hurl : url ≠ "") :
    (getSeg (uploadComplete s idx b (UploadResult.ok url)) idx).uploadUrl = some url ∧
    (getSeg (uploadComplete s idx b (UploadResult.ok url)) idx).status = SegStatus.uploaded ∧
    (getSeg (uploadComplete s idx b (UploadResult.fail reason)) idx).uploadUrl =
      (getSeg s idx).uploadUrl ∧
    (getSeg (uploadComplete s idx b (UploadResult.fail reason)) idx).status =
      SegStatus.error ∧
    ((getSeg s s.currentSegment).retryCount < MAX_RETRIES →
      s.currentSegment < s.segments.length →
      (getSeg (handleRetry s) s.currentSegment).uploadUrl = none) := by
  have hok : getSeg (uploadComplete s idx b (UploadResult.ok url)) idx =
      { getSeg s idx with
        status := SegStatus.uploaded
        uploadUrl := if url = "" then none else some url } := by
    unfold uploadComplete
    dsimp only
    rw [getSeg_updateSeg_self
      { s with pendingUploads := s.pendingUploads.erase (idx, b) } _ _ hidx]
    rfl
  have hfail : getSeg (uploadComplete s idx b (UploadResult.fail reason)) idx =
      { getSeg s idx with
        status := SegStatus.error
        retryCount := (getSeg s idx).retryCount + 1
        errorMsg := some (if reason = "" then "上传失败" else reason) } := by
    unfold uploadComplete
    dsimp only
    rw [getSeg_updateSeg_self
      { s with pendingUploads := s.pendingUploads.erase (idx, b) } _ _ hidx]
    rfl
  refine ⟨?_, ?_, ?_, ?_, fun hlt hlen => ?_⟩
  · rw [hok]
    simp [hurl]
  · rw [hok]
  · rw [hfail]
  · rw [hfail]
  · rw [handleRetry_accepted s hlen hlt]

/-- Witness for the amended C4: concrete settlements of segment 0's uploads. -/
theorem remoteUrl_lifecycle_witness :
    (getSeg (uploadComplete autoStoppedState 0 testBlob
        (UploadResult.ok "https://cos.example/task/seg0.webm")) 0).uploadUrl =
      some "https://cos.example/task/seg0.webm" ∧
    (getSeg (uploadComplete autoStoppedState 0 testBlob
        (UploadResult.fail "network error")) 0).uploadUrl =
      (getSeg autoStoppedState 0).uploadUrl ∧
    (getSeg (uploadComplete autoStoppedState 0 testBlob
        (UploadResult.fail "network error")) 0).status = SegStatus.error := by
  have h := remoteUrl_lifecycle autoStoppedState 0 testBlob
    "https://cos.example/task/seg0.webm" "network error" (by decide) (by decide)
  exact ⟨h.1, h.2.2.1, h.2.2.2.1⟩

/-- C5: evaluation at the diverging input.  A manual stop of a live recording
below the limit whose capture yields a null payload leaves the segment stuck
in `processing` with no error message (the `if (blob)` block of
`handleTouchEnd` has no else branch), while the auto-stop path at the very
same input marks the segment `error` with the capture-failure message — so the
two paths are NOT identical on null payloads, only on non-null ones. -/
theorem manual_null_stop_divergence :
    (getSeg (handleTouchEnd recordingState none) 0).status = SegStatus.processing ∧
    (getSeg (handleTouchEnd recordingState none) 0).errorMsg = none ∧
    (handleTouchEnd recordingState none).hook.st.isRecording = false ∧
    (handleTouchEnd recordingState none).uploadCalls = [] ∧
    (getSeg (handleAutoStop recordingState none) 0).status = SegStatus.error ∧
    (getSeg (handleAutoStop recordingState none) 0).errorMsg = some "录制失败，请重试" := by
  decide

end VoiceCapsule
